import Mathlib

/-!
Verification of the search core and the vehicle endpoints of the
grisov/vehicles repository.

The course-search core (the `SearchData` criteria object, its construction
validation, the predicate it compiles to and the database `search` scan) is
exercised by `src/api/test/test_controller_search.py`; the implementation
itself is modelled here from the specification (spec.md sections 3, 4 and 7).
The vehicle endpoints (`src/backend/app/app/api/api_v1/endpoints/vehicles.py`)
and the vehicle CRUD filter (`src/backend/app/app/crud/vehicle.py`) are
embedded directly from the source.
-/

namespace CourseSearch

/-- Modelled from the spec: a calendar date in ISO 8601 year-month-day form
(spec section 3, the `start`/`end` fields of SearchCriteria and of Entity). -/
structure Date where
  year : Nat
  month : Nat
  day : Nat
  deriving DecidableEq, Repr

/-- Modelled from the spec: chronological order on dates, lexicographic on
(year, month, day). -/
def Date.le (a b : Date) : Prop :=
  a.year < b.year ∨
    (a.year = b.year ∧
      (a.month < b.month ∨ (a.month = b.month ∧ a.day ≤ b.day)))

instance (a b : Date) : Decidable (Date.le a b) := by
  unfold Date.le
  infer_instance

/-- Numeric value of a decimal digit character. -/
def digitVal (c : Char) : Nat := c.toNat - '0'.toNat

/-- Modelled from the spec: parse an ISO 8601 `YYYY-MM-DD` date string
(spec sections 3 and 7: a date filter field must parse as ISO 8601
`YYYY-MM-DD`; anything else is `InvalidDateFormat`). The source of the
parser (the `SearchData` model) is not under src/, only its tests are. -/
def parseDate (s : String) : Option Date :=
  match s.data with
  | [y1, y2, y3, y4, h1, m1, m2, h2, d1, d2] =>
    if y1.isDigit && y2.isDigit && y3.isDigit && y4.isDigit
        && (h1 == '-') && (h2 == '-')
        && m1.isDigit && m2.isDigit && d1.isDigit && d2.isDigit then
      let y := ((digitVal y1 * 10 + digitVal y2) * 10 + digitVal y3) * 10 + digitVal y4
      let m := digitVal m1 * 10 + digitVal m2
      let d := digitVal d1 * 10 + digitVal d2
      if 1 ≤ m && m ≤ 12 && 1 ≤ d && d ≤ 31 then some ⟨y, m, d⟩ else none
    else none
  | _ => none

/-- Modelled from the spec: a course entity (spec section 3: immutable `id`,
`name`, `start` date, `end` date and an opaque numeric attribute). The
entity model itself is not under src/; the fixture in
`test_controller_search.py` constructs courses with these fields. -/
structure Course where
  id : Nat
  name : String
  start : Date
  «end» : Date
  duration : Nat
  deriving DecidableEq, Repr

/-- Modelled from the spec: the two validation error kinds of SearchCriteria
construction (spec section 7). -/
inductive ValidationError where
  | EmptyField (field : String)
  | InvalidDateFormat (field : String)
  deriving DecidableEq, Repr

/-- Modelled from the spec: the validated search criteria value object
(spec section 3): an optional name substring, an optional start-date lower
bound and an optional end-date upper bound. The source class `SearchData`
(api.models.search_data) is not under src/, only its tests are. -/
structure SearchData where
  name : Option String
  start : Option Date
  «end» : Option Date
  deriving DecidableEq, Repr

/-- Validation of one optional date field during SearchData construction. -/
def parseDateField (field : String) (v : Option String) :
    Except ValidationError (Option Date) :=
  match v with
  | none => .ok none
  | some s =>
    match parseDate s with
    | some d => .ok (some d)
    | none => .error (.InvalidDateFormat field)

/-- Validation of the optional name field during SearchData construction:
a present but empty string is rejected, a present non-empty string and an
absent field are kept as they are. -/
def checkName (nm : Option String) : Except ValidationError (Option String) :=
  match nm with
  | none => .ok none
  | some s => if s = "" then .error (.EmptyField "name") else .ok (some s)

/-- Modelled from the spec: SearchData construction (spec section 4.1):
each present field is validated; a present but empty `name` is
`EmptyField`, a present date field that does not parse is
`InvalidDateFormat`; absent fields are left absent; validation fails fast
before any predicate is built. -/
def mkSearchData (nm st en : Option String) : Except ValidationError SearchData :=
  match checkName nm with
  | .error e => .error e
  | .ok name =>
    match parseDateField "start" st with
    | .error e => .error e
    | .ok start =>
      match parseDateField "end" en with
      | .error e => .error e
      | .ok fin => .ok ⟨name, start, fin⟩

/-- Does the needle list occur at the head of the haystack list? -/
def startsWithL : List Char → List Char → Bool
  | [], _ => true
  | _ :: _, [] => false
  | a :: as, b :: bs => (a == b) && startsWithL as bs

/-- Does the needle list occur as a contiguous sublist of the haystack? -/
def occursIn : List Char → List Char → Bool
  | n, [] => n.isEmpty
  | n, h :: hs => startsWithL n (h :: hs) || occursIn n hs

/-- Modelled from the spec: the compiled predicate of a validated
SearchData over one course (spec section 4.2): `name` present means
case-sensitive substring containment in the entity name, `start` present
means the entity starts on or after the bound, `end` present means the
entity ends on or before the bound, absent fields impose no constraint,
and the composition is logical AND. -/
def matchCourse (c : SearchData) (e : Course) : Bool :=
  (match c.name with
   | none => true
   | some s => occursIn s.data e.name.data) &&
  (match c.start with
   | none => true
   | some d => decide (Date.le d e.start)) &&
  (match c.«end» with
   | none => true
   | some d => decide (Date.le e.«end» d))

/-- Modelled from the spec: the search evaluation (spec section 4.3): a
linear scan of the entity collection keeping exactly the records the
compiled predicate accepts, in stored order. -/
def search (c : SearchData) (E : List Course) : List Course :=
  E.filter (fun e => matchCourse c e)

/-- The six-course fixture filled into the database by
`TestSearchController.setUp` in `src/api/test/test_controller_search.py`
(ids 1..6 assigned in insertion order). -/
def fixtureCourses : List Course :=
  [⟨1, "Level one", ⟨2021, 4, 4⟩, ⟨2023, 12, 22⟩, 37⟩,
   ⟨2, "The Python 3.10", ⟨2021, 8, 19⟩, ⟨2022, 4, 21⟩, 71⟩,
   ⟨3, "Level two", ⟨2022, 5, 5⟩, ⟨2024, 11, 19⟩, 25⟩,
   ⟨4, "Python forever!", ⟨2021, 6, 7⟩, ⟨2023, 9, 27⟩, 44⟩,
   ⟨5, "Level three", ⟨2023, 6, 7⟩, ⟨2025, 10, 17⟩, 19⟩,
   ⟨6, "What is the Python?", ⟨2023, 3, 23⟩, ⟨2023, 8, 28⟩, 17⟩]

end CourseSearch

namespace VehiclesApi

/-- A vehicle record as stored in the database, embedded from the fields of
`schemas.VehicleDatabase` and the columns `CRUDVehicle` manipulates
(`src/backend/app/app/crud/vehicle.py`): an id, the descriptive fields
`make`, `model`, `plate_number` and a nullable `driver_id`. -/
structure Vehicle where
  id : Nat
  make : String
  model : String
  plate_number : String
  driver_id : Option Nat
  deriving DecidableEq, Repr

/-- An HTTP error raised by an endpoint (`fastapi.HTTPException`), reduced
to its status code and detail message. -/
structure HTTPError where
  status_code : Nat
  detail : String
  deriving DecidableEq, Repr

/-- Embeds `CRUDVehicle.get_filtered` (`src/backend/app/app/crud/vehicle.py`
lines 27-42): `if with_driver:` keeps the vehicles whose `driver_id` is not
null, `elif with_driver is False:` keeps those whose `driver_id` is null,
and otherwise the whole table is returned. -/
def get_filtered (vehicles : List Vehicle) (with_driver : Option Bool) :
    List Vehicle :=
  match with_driver with
  | some true => vehicles.filter (fun v => v.driver_id.isSome)
  | some false => vehicles.filter (fun v => v.driver_id.isNone)
  | none => vehicles

/-- The `with_drivers` query parameter of the vehicle-list endpoint,
a `Literal["yes", "no"]` in the source. -/
inductive WithDriversParam where
  | yes
  | no
  deriving DecidableEq, Repr

/-- The translation the `get_vehicles` endpoint applies to its query
parameter: `True if with_drivers == "yes" else False if with_drivers == "no"
else None`. -/
def translateWithDrivers (wd : Option WithDriversParam) : Option Bool :=
  match wd with
  | some .yes => some true
  | some .no => some false
  | none => none

/-- Embeds the `get_vehicles` endpoint
(`src/backend/app/app/api/api_v1/endpoints/vehicles.py` lines 17-40),
database-failure branch aside: it filters through
`CRUDVehicle.get_filtered` and raises HTTP 404 when the resulting list is
empty (`if not vehicles:`), otherwise returns the list. -/
def get_vehicles (vehicles : List Vehicle) (with_drivers : Option WithDriversParam) :
    Except HTTPError (List Vehicle) :=
  let found := get_filtered vehicles (translateWithDrivers with_drivers)
  if found.isEmpty then
    .error ⟨404, "There are no vehicles in the database that meet the specified criteria"⟩
  else
    .ok found

/-- Embeds `crud.driver.get` as called by `set_driver_in_vehicle`: looking
up a nullable driver id in the driver table returns the record when the id
is non-null and present, and `None` otherwise. -/
def driverGet (drivers : List Nat) (id : Option Nat) : Option Nat :=
  match id with
  | none => none
  | some i => if i ∈ drivers then some i else none

/-- Embeds `crud.vehicle.update(db, db_obj=vehicle, obj_in={"driver_id": ...})`
as called by `set_driver_in_vehicle`: only the `driver_id` column changes. -/
def updateDriverId (v : Vehicle) (did : Option Nat) : Vehicle :=
  { v with driver_id := did }

/-- Embeds the `set_driver_in_vehicle` endpoint
(`src/backend/app/app/api/api_v1/endpoints/vehicles.py` lines 131-169),
database-failure branch aside: the vehicle is fetched by id (404 when
absent), the driver is fetched by the nullable `data_in.driver_id`, and
only `if driver is not None or data_in.driver_id is None:` is the vehicle's
`driver_id` updated; in every non-404 case the (possibly unchanged)
vehicle is returned. The first component of the result is the database
table after the call. -/
def set_driver_in_vehicle (vehicles : List Vehicle) (drivers : List Nat)
    (vehicle_id : Nat) (driver_id : Option Nat) :
    Except HTTPError (List Vehicle × Vehicle) :=
  match vehicles.find? (fun v => decide (v.id = vehicle_id)) with
  | none => .error ⟨404, "Vehicle is not found in the database"⟩
  | some vehicle =>
    let driver := driverGet drivers driver_id
    if driver.isSome || driver_id.isNone then
      let updated := updateDriverId vehicle driver_id
      .ok (vehicles.map (fun v => if v.id = vehicle_id then updated else v), updated)
    else
      .ok (vehicles, vehicle)

end VehiclesApi

namespace CourseSearch

/-- The head-anchored matcher holds exactly when the haystack extends
the needle. -/
theorem startsWithL_iff (n h : List Char) :
    startsWithL n h = true ↔ ∃ post, h = n ++ post := by
  induction n generalizing h with
  | nil => simp [startsWithL]
  | cons a as ih =>
    cases h with
    | nil => simp [startsWithL]
    | cons b bs =>
      simp only [startsWithL, Bool.and_eq_true, beq_iff_eq, ih, List.cons_append,
        List.cons.injEq]
      constructor
      · rintro ⟨rfl, post, rfl⟩
        exact ⟨post, rfl, rfl⟩
      · rintro ⟨post, rfl, rfl⟩
        exact ⟨rfl, post, rfl⟩

/-- The substring matcher holds exactly when the needle occurs contiguously
inside the haystack. -/
theorem occursIn_iff (n h : List Char) :
    occursIn n h = true ↔ ∃ pre post, h = pre ++ n ++ post := by
  induction h with
  | nil =>
    simp only [occursIn, List.isEmpty_iff]
    constructor
    · rintro rfl
      exact ⟨[], [], rfl⟩
    · rintro ⟨pre, post, hpp⟩
      rcases List.append_eq_nil.mp hpp.symm with ⟨h1, h2⟩
      rcases List.append_eq_nil.mp h1 with ⟨_, rfl⟩
      rfl
  | cons c hs ih =>
    simp only [occursIn, Bool.or_eq_true, startsWithL_iff, ih]
    constructor
    · rintro (⟨post, hp⟩ | ⟨pre, post, hp⟩)
      · exact ⟨[], post, by simpa using hp⟩
      · exact ⟨c :: pre, post, by simp [hp]⟩
    · rintro ⟨pre, post, hp⟩
      cases pre with
      | nil =>
        left
        exact ⟨post, by simpa using hp⟩
      | cons p ps =>
        right
        simp only [List.cons_append, List.cons.injEq] at hp
        exact ⟨ps, post, hp.2⟩

/-- Construction with only a name present succeeds exactly on a non-empty
name and keeps the name verbatim. -/
theorem mkSearchData_name_ok (s : String) (c : SearchData)
    (h : mkSearchData (some s) none none = .ok c) :
    s ≠ "" ∧ c = ⟨some s, none, none⟩ := by
  by_cases hs : s = ""
  · subst hs
    simp [mkSearchData, checkName] at h
  · refine ⟨hs, ?_⟩
    simp [mkSearchData, checkName, parseDateField, hs] at h
    exact h.symm

/-- Construction with only a start date present succeeds exactly when the
string parses, and stores the parsed date. -/
theorem mkSearchData_start_ok (ds : String) (c : SearchData)
    (h : mkSearchData none (some ds) none = .ok c) :
    ∃ d, parseDate ds = some d ∧ c = ⟨none, some d, none⟩ := by
  cases hp : parseDate ds with
  | none => simp [mkSearchData, checkName, parseDateField, hp] at h
  | some d =>
    refine ⟨d, rfl, ?_⟩
    simp [mkSearchData, checkName, parseDateField, hp] at h
    exact h.symm

/-- Construction with only an end date present succeeds exactly when the
string parses, and stores the parsed date. -/
theorem mkSearchData_end_ok (ds : String) (c : SearchData)
    (h : mkSearchData none none (some ds) = .ok c) :
    ∃ d, parseDate ds = some d ∧ c = ⟨none, none, some d⟩ := by
  cases hp : parseDate ds with
  | none => simp [mkSearchData, checkName, parseDateField, hp] at h
  | some d =>
    refine ⟨d, rfl, ?_⟩
    simp [mkSearchData, checkName, parseDateField, hp] at h
    exact h.symm

/-- Date-field validation never reports an empty field. -/
theorem parseDateField_ne_empty (fld f : String) (v : Option String) :
    parseDateField fld v ≠ .error (.EmptyField f) := by
  unfold parseDateField
  rcases v with _ | s
  · simp
  · cases hp : parseDate s <;> simp [hp]

/-- C1: for every entity collection and criteria with name, start and end
all present, the search result is exactly the intersection of the three
single-field result sets (filter composition is logical AND across the
present fields); on the six-course fixture, name="Python",
start="2021-06-17" and end="2024-04-24" yield exactly the records with
ids 2 and 6. -/
theorem search_and_composition :
    (∀ (E : List Course) (n : String) (ds de : Date) (e : Course),
      e ∈ search ⟨some n, some ds, some de⟩ E ↔
        e ∈ search ⟨some n, none, none⟩ E ∧
        e ∈ search ⟨none, some ds, none⟩ E ∧
        e ∈ search ⟨none, none, some de⟩ E) ∧
    (mkSearchData (some "Python") (some "2021-06-17") (some "2024-04-24")).map
        (fun c => (search c fixtureCourses).map Course.id) = .ok [2, 6] := by
  constructor
  · intro E n ds de e
    simp only [search, List.mem_filter, matchCourse, Bool.and_true, Bool.true_and,
      Bool.and_eq_true]
    tauto
  · rfl

/-- C2: searching a collection with a validated criteria whose only present
field is the name returns exactly the entities whose name contains the
criteria name as a case-sensitive contiguous substring; on the six-course
fixture, name="Level" yields exactly the records with ids 1, 3 and 5. -/
theorem search_name_substring :
    (∀ (E : List Course) (s : String) (c : SearchData),
      mkSearchData (some s) none none = .ok c →
      ∀ e : Course, e ∈ search c E ↔
        e ∈ E ∧ ∃ pre post : List Char, e.name.data = pre ++ s.data ++ post) ∧
    (mkSearchData (some "Level") none none).map
        (fun c => (search c fixtureCourses).map Course.id) = .ok [1, 3, 5] := by
  constructor
  · intro E s c h e
    obtain ⟨-, rfl⟩ := mkSearchData_name_ok s c h
    simp only [search, List.mem_filter, matchCourse, Bool.and_true, occursIn_iff]
  · rfl

/-- C2 witness: on the fixture, the course with id 1 belongs to the
name="Level" search result exactly because "Level" occurs inside its name. -/
theorem search_name_substring_witness :
    (⟨1, "Level one", ⟨2021, 4, 4⟩, ⟨2023, 12, 22⟩, 37⟩ : Course) ∈
        search ⟨some "Level", none, none⟩ fixtureCourses ↔
      (⟨1, "Level one", ⟨2021, 4, 4⟩, ⟨2023, 12, 22⟩, 37⟩ : Course) ∈ fixtureCourses ∧
        ∃ pre post : List Char,
          ("Level one" : String).data = pre ++ ("Level" : String).data ++ post :=
  search_name_substring.1 fixtureCourses "Level" ⟨some "Level", none, none⟩ rfl
    ⟨1, "Level one", ⟨2021, 4, 4⟩, ⟨2023, 12, 22⟩, 37⟩

/-- C3: searching with only a start date keeps exactly the entities whose
start date is on or after the bound, and searching with only an end date
keeps exactly the entities whose end date is on or before the bound; on the
six-course fixture, start="2022-02-22" yields ids 3, 5, 6 and
end="2024-04-24" yields ids 1, 2, 4, 6. -/
theorem search_date_bounds :
    (∀ (E : List Course) (ds : String) (c : SearchData) (d : Date),
      mkSearchData none (some ds) none = .ok c → parseDate ds = some d →
      ∀ e : Course, e ∈ search c E ↔ e ∈ E ∧ Date.le d e.start) ∧
    (∀ (E : List Course) (ds : String) (c : SearchData) (d : Date),
      mkSearchData none none (some ds) = .ok c → parseDate ds = some d →
      ∀ e : Course, e ∈ search c E ↔ e ∈ E ∧ Date.le e.«end» d) ∧
    (mkSearchData none (some "2022-02-22") none).map
        (fun c => (search c fixtureCourses).map Course.id) = .ok [3, 5, 6] ∧
    (mkSearchData none none (some "2024-04-24")).map
        (fun c => (search c fixtureCourses).map Course.id) = .ok [1, 2, 4, 6] := by
  refine ⟨?_, ?_, rfl, rfl⟩
  · intro E ds c d h hp e
    obtain ⟨d', hp', rfl⟩ := mkSearchData_start_ok ds c h
    rw [hp] at hp'
    obtain rfl := Option.some.inj hp'
    simp only [search, List.mem_filter, matchCourse, Bool.true_and, Bool.and_true,
      decide_eq_true_eq]
  · intro E ds c d h hp e
    obtain ⟨d', hp', rfl⟩ := mkSearchData_end_ok ds c h
    rw [hp] at hp'
    obtain rfl := Option.some.inj hp'
    simp only [search, List.mem_filter, matchCourse, Bool.true_and, Bool.and_true,
      decide_eq_true_eq]

/-- C3 witness: on the fixture, the course with id 3 belongs to the
start="2022-02-22" search result exactly because it starts on or after that
date. -/
theorem search_date_bounds_witness :
    (⟨3, "Level two", ⟨2022, 5, 5⟩, ⟨2024, 11, 19⟩, 25⟩ : Course) ∈
        search ⟨none, some ⟨2022, 2, 22⟩, none⟩ fixtureCourses ↔
      (⟨3, "Level two", ⟨2022, 5, 5⟩, ⟨2024, 11, 19⟩, 25⟩ : Course) ∈ fixtureCourses ∧
        Date.le ⟨2022, 2, 22⟩ ⟨2022, 5, 5⟩ :=
  search_date_bounds.1 fixtureCourses "2022-02-22" ⟨none, some ⟨2022, 2, 22⟩, none⟩
    ⟨2022, 2, 22⟩ rfl rfl ⟨3, "Level two", ⟨2022, 5, 5⟩, ⟨2024, 11, 19⟩, 25⟩

/-- C4: a criteria constructed with all fields absent validates
successfully, compiles to the constant-true predicate, and searching with
it returns the entire collection; on the six-course fixture this is the
full id list 1..6. -/
theorem search_no_criteria_returns_all :
    mkSearchData none none none = .ok ⟨none, none, none⟩ ∧
    (∀ e : Course, matchCourse ⟨none, none, none⟩ e = true) ∧
    (∀ E : List Course, search ⟨none, none, none⟩ E = E) ∧
    (search ⟨none, none, none⟩ fixtureCourses).map Course.id = [1, 2, 3, 4, 5, 6] := by
  refine ⟨rfl, fun e => rfl, fun E => ?_, rfl⟩
  exact List.filter_eq_self.mpr (fun e _ => rfl)

/-- C5: constructing a criteria with name explicitly set to the empty
string fails with the EmptyField validation error whatever the other
fields are, while a construction with the name absent can never produce an
EmptyField error: field absent and field empty are distinct states. -/
theorem empty_name_rejected :
    (∀ st en : Option String,
      mkSearchData (some "") st en = .error (.EmptyField "name")) ∧
    (∀ (st en : Option String) (f : String),
      mkSearchData none st en ≠ .error (.EmptyField f)) := by
  constructor
  · intro st en
    rfl
  · intro st en f h
    simp only [mkSearchData, checkName] at h
    cases hst : parseDateField "start" st with
    | error e =>
      rw [hst] at h
      simp only [Except.error.injEq] at h
      exact parseDateField_ne_empty "start" f st (by rw [hst, h])
    | ok start =>
      rw [hst] at h
      cases hen : parseDateField "end" en with
      | error e2 =>
        rw [hen] at h
        simp only [Except.error.injEq] at h
        exact parseDateField_ne_empty "end" f en (by rw [hen, h])
      | ok fin =>
        rw [hen] at h
        simp at h

/-- C5 witness: the all-absent construction, in particular, is not an
EmptyField error on the name. -/
theorem empty_name_rejected_witness :
    mkSearchData none none none ≠ .error (.EmptyField "name") :=
  empty_name_rejected.2 none none "name"

/-- C6: any string that does not parse as an ISO 8601 YYYY-MM-DD date is
rejected at construction time with the InvalidDateFormat validation error,
whether supplied as the start or as the end field; no criteria value is
produced, so no predicate compilation or entity scan can occur. -/
theorem invalid_date_rejected (s : String) (hp : parseDate s = none) :
    mkSearchData none (some s) none = .error (.InvalidDateFormat "start") ∧
    mkSearchData none none (some s) = .error (.InvalidDateFormat "end") := by
  constructor
  · simp [mkSearchData, checkName, parseDateField, hp]
  · simp [mkSearchData, checkName, parseDateField, hp]

/-- C6 witness: the concrete malformed dates from the tests,
"25/12/2021" and "20 Apr 2019", do not parse and are rejected. -/
theorem invalid_date_rejected_witness :
    (parseDate "25/12/2021" = none ∧
      mkSearchData none (some "25/12/2021") none = .error (.InvalidDateFormat "start")) ∧
    (parseDate "20 Apr 2019" = none ∧
      mkSearchData none none (some "20 Apr 2019") = .error (.InvalidDateFormat "end")) :=
  ⟨⟨rfl, (invalid_date_rejected "25/12/2021" rfl).1⟩,
   ⟨rfl, (invalid_date_rejected "20 Apr 2019" rfl).2⟩⟩

/-- C7: for every validated criteria, the search is a total function whose
result is the empty list exactly when no entity of the collection satisfies
the compiled predicate; an empty match set is an ordinary empty sequence,
never an error, and neither the predicate nor the scan has a failure path
(both are total functions into Bool and List). -/
theorem search_empty_iff_no_match (c : SearchData) (E : List Course) :
    search c E = [] ↔ ∀ e ∈ E, matchCourse c e = false := by
  simp only [search, List.filter_eq_nil_iff, Bool.not_eq_true]

/-- C7 witness: the no-result query from the tests returns the empty list
on the fixture. -/
theorem search_empty_iff_no_match_witness :
    search ⟨some "I do not know what I am looking for", none, none⟩ fixtureCourses = [] :=
  (search_empty_iff_no_match ⟨some "I do not know what I am looking for", none, none⟩
    fixtureCourses).mpr (by decide)

end CourseSearch

namespace VehiclesApi

/-- C8: when the vehicle exists, a set-driver request carrying a non-null
driver id that matches no driver record leaves the database and every field
of the vehicle unchanged and still returns the vehicle successfully; only
when the referenced driver exists, or the supplied driver id is null
(driver removal), is the vehicle's driver_id updated. -/
theorem set_driver_frame (vehicles : List Vehicle) (drivers : List Nat)
    (vid : Nat) (v : Vehicle)
    (hfind : vehicles.find? (fun w => decide (w.id = vid)) = some v) :
    (∀ i : Nat, i ∉ drivers →
      set_driver_in_vehicle vehicles drivers vid (some i) = .ok (vehicles, v)) ∧
    (∀ i : Nat, i ∈ drivers →
      set_driver_in_vehicle vehicles drivers vid (some i) =
        .ok (vehicles.map (fun w => if w.id = vid then { v with driver_id := some i } else w),
             { v with driver_id := some i })) ∧
    set_driver_in_vehicle vehicles drivers vid none =
      .ok (vehicles.map (fun w => if w.id = vid then { v with driver_id := none } else w),
           { v with driver_id := none }) := by
  refine ⟨?_, ?_, ?_⟩
  · intro i hi
    simp [set_driver_in_vehicle, hfind, driverGet, hi]
  · intro i hi
    simp [set_driver_in_vehicle, hfind, driverGet, hi, updateDriverId]
  · simp [set_driver_in_vehicle, hfind, driverGet, updateDriverId]

/-- C8 witness: with one vehicle whose driver is 3 and a driver table
containing only 3, assigning the nonexistent driver 9 changes nothing and
still returns the vehicle. -/
theorem set_driver_frame_witness :
    set_driver_in_vehicle [⟨1, "Renault", "Logan", "AA 1234 BB", some 3⟩] [3] 1 (some 9) =
      .ok ([⟨1, "Renault", "Logan", "AA 1234 BB", some 3⟩],
           ⟨1, "Renault", "Logan", "AA 1234 BB", some 3⟩) :=
  (set_driver_frame [⟨1, "Renault", "Logan", "AA 1234 BB", some 3⟩] [3] 1
    ⟨1, "Renault", "Logan", "AA 1234 BB", some 3⟩ rfl).1 9 (by decide)

/-- C9: for every database state, the with-driver and without-driver
results of get_filtered are disjoint, and together they are exactly the
unfiltered result, which returns every vehicle: membership in the full
table is equivalent to membership in exactly one of the two filtered
lists, and the two lengths add up to the full length. -/
theorem get_filtered_partition (vs : List Vehicle) :
    (∀ v : Vehicle, v ∈ get_filtered vs (some true) → v ∉ get_filtered vs (some false)) ∧
    (∀ v : Vehicle, v ∈ get_filtered vs none ↔
      v ∈ get_filtered vs (some true) ∨ v ∈ get_filtered vs (some false)) ∧
    get_filtered vs none = vs ∧
    (get_filtered vs (some true)).length + (get_filtered vs (some false)).length
      = vs.length := by
  refine ⟨?_, ?_, rfl, ?_⟩
  · intro v hT hF
    simp only [get_filtered, List.mem_filter] at hT hF
    rw [Option.isNone_iff_eq_none] at hF
    rw [hF.2] at hT
    simp at hT
  · intro v
    show v ∈ vs ↔ _
    constructor
    · intro hv
      rcases hd : v.driver_id with _ | d
      · right
        simp [get_filtered, List.mem_filter, hv, hd]
      · left
        simp [get_filtered, List.mem_filter, hv, hd]
    · rintro (h | h) <;> exact (List.mem_filter.mp h).1
  · induction vs with
    | nil => rfl
    | cons v t ih =>
      simp only [get_filtered] at ih ⊢
      rcases hd : v.driver_id with _ | d <;>
        simp [List.filter_cons, hd] <;> omega

/-- C9 witness: a vehicle carrying a driver that appears in the with-driver
list does not appear in the without-driver list. -/
theorem get_filtered_partition_witness :
    (⟨1, "VW", "Golf", "AA 1111 AA", some 4⟩ : Vehicle) ∉
      get_filtered [⟨1, "VW", "Golf", "AA 1111 AA", some 4⟩] (some false) :=
  (get_filtered_partition [⟨1, "VW", "Golf", "AA 1111 AA", some 4⟩]).1
    ⟨1, "VW", "Golf", "AA 1111 AA", some 4⟩ (by decide)

/-- C10: whenever the filter of the vehicle-list endpoint matches no
vehicle, the endpoint does not return an empty list but fails with an
HTTP 404 error. -/
theorem get_vehicles_empty_404 (vs : List Vehicle) (wd : Option WithDriversParam)
    (h : get_filtered vs (translateWithDrivers wd) = []) :
    get_vehicles vs wd =
      .error ⟨404, "There are no vehicles in the database that meet the specified criteria"⟩ := by
  simp [get_vehicles, h]

/-- C10 witness: with one driverless vehicle in the table, asking for the
vehicles that have a driver yields the 404 error, not an empty list. -/
theorem get_vehicles_empty_404_witness :
    get_vehicles [⟨1, "VW", "Golf", "AA 1111 AA", none⟩] (some .yes) =
      .error ⟨404, "There are no vehicles in the database that meet the specified criteria"⟩ :=
  get_vehicles_empty_404 [⟨1, "VW", "Golf", "AA 1111 AA", none⟩] (some .yes) rfl

end VehiclesApi
